import Mathlib

/-!
Formal model of `video.py` from the videogen-app repository.

The Python module is shallowly embedded: each Python function that the
specification's claims touch is translated into an executable Lean
definition, with I/O effects (HTTP responses, the uploads/videos
directories, the external `ffmpeg` process) made explicit as parameters
and state.  Filesystems are modelled as association lists from paths to
file contents; Python floats arising from duration strings are modelled
as rationals; Python exceptions are modelled as `Option`/explicit error
results.
-/

/-! ## Python string primitives (over `List Char`)

`video.py` manipulates strings with `split`, `splitlines`, `strip`,
`in` (substring test), and `werkzeug.utils.secure_filename`.  These are
modelled here by structurally recursive functions over `List Char`.
-/

/-- Python's `str.isspace` characters restricted to ASCII, which is all that
`str.split()` / `str.strip()` need on the diagnostic and filename strings
the program handles. -/
def pyIsSpace (c : Char) : Bool :=
  c ∈ [' ', '\t', '\n', '\x0b', '\x0c', '\r']

/-- Whether `pat` is a leading segment of `l` (used to locate substring
occurrences). -/
def isPrefixChars : List Char → List Char → Bool
  | [], _ => true
  | _ :: _, [] => false
  | a :: as, b :: bs => a = b && isPrefixChars as bs

/-- Python's `pat in s` substring test. -/
def containsSub (pat : List Char) : List Char → Bool
  | [] => isPrefixChars pat []
  | c :: cs => isPrefixChars pat (c :: cs) || containsSub pat cs

/-- Split `l` at the first occurrence of `sep`, returning the part before the
occurrence and the part after it; `none` when `sep` does not occur. -/
def breakOn (sep : List Char) : List Char → Option (List Char × List Char)
  | [] => if isPrefixChars sep [] then some ([], []) else none
  | c :: cs =>
    if isPrefixChars sep (c :: cs) then some ([], (c :: cs).drop sep.length)
    else
      match breakOn sep cs with
      | some (a, b) => some (c :: a, b)
      | none => none

/-- Fuelled worker for Python's `str.split(sep)` with a non-empty separator.
Each located occurrence consumes at least one character of the input, so
fuel `l.length + 1` always suffices; the fuel only makes the structural
recursion explicit. -/
def pySplitOnFuel (sep : List Char) : Nat → List Char → List (List Char)
  | 0, l => [l]
  | fuel + 1, l =>
    match breakOn sep l with
    | none => [l]
    | some (pre, post) => pre :: pySplitOnFuel sep fuel post

/-- Python's `s.split(sep)` for a non-empty separator `sep`. -/
def pySplitOn (sep : List Char) (l : List Char) : List (List Char) :=
  pySplitOnFuel sep (l.length + 1) l

/-- Strip characters satisfying `p` from both ends of `l` (Python's
`str.strip` family). -/
def stripBy (p : Char → Bool) (l : List Char) : List Char :=
  ((l.dropWhile p).reverse.dropWhile p).reverse

/-- Python's `str.split()` with no separator: split on runs of whitespace,
discarding empty pieces.  The accumulator carries the current word in
reverse. -/
def wordsAux : List Char → List Char → List (List Char)
  | [], acc => if acc.isEmpty then [] else [acc.reverse]
  | c :: cs, acc =>
    if pyIsSpace c then
      if acc.isEmpty then wordsAux cs [] else acc.reverse :: wordsAux cs []
    else wordsAux cs (c :: acc)

/-- Python's `s.split()` (whitespace words). -/
def pyWords (l : List Char) : List (List Char) :=
  wordsAux l []

/-- Numeric value of a non-empty all-digit character list; `none` otherwise. -/
def digitsVal (l : List Char) : Option Nat :=
  if l.isEmpty then none
  else if l.all Char.isDigit then
    some (l.foldl (fun a c => a * 10 + (c.toNat - 48)) 0)
  else none

/-- Python's `float(s)` on the strings this program feeds it: optionally
whitespace-padded unsigned decimal literals (`"12"`, `"30.50"`, `".5"`,
`"5."`).  Signed, exponent, `inf`/`nan` spellings never arise from the
`HH:MM:SS.fraction` fields being parsed and are modelled, like every other
non-numeric string (for example ffmpeg's `N/A`), as a `ValueError`,
i.e. `none`. -/
def parsePyFloat (s : List Char) : Option ℚ :=
  let t := stripBy pyIsSpace s
  match pySplitOn ['.'] t with
  | [a] => (digitsVal a).map (fun n => (n : ℚ))
  | [a, b] =>
    if a.isEmpty && b.isEmpty then none
    else if a.isEmpty then
      (digitsVal b).map (fun f => (f : ℚ) / (10 : ℚ) ^ b.length)
    else if b.isEmpty then
      (digitsVal a).map (fun n => (n : ℚ))
    else
      match digitsVal a, digitsVal b with
      | some n, some f => some ((n : ℚ) + (f : ℚ) / (10 : ℚ) ^ b.length)
      | _, _ => none
  | _ => none

/-! ## Uploads filesystem and the Asset Fetcher (`download_file`)

The uploads folder is modelled as an association list from paths to file
contents.  For images the content records the pixel dimensions; audio
bytes and the sequence-plan text are opaque blobs.
-/

/-- Contents of a file in the uploads folder. -/
inductive FileData
  | image (width height : Nat)
  | blob
deriving DecidableEq

/-- Look up the contents stored at `path`. -/
def lookupFile (fs : List (String × FileData)) (path : String) : Option FileData :=
  match fs with
  | [] => none
  | (p, d) :: rest => if p = path then some d else lookupFile rest path

/-- Overwrite the contents stored at `path` (every entry for `path`, matching
a filesystem's single file per path). -/
def updateFile : List (String × FileData) → String → FileData → List (String × FileData)
  | [], _, _ => []
  | (q, d') :: rest, path, d =>
    if q = path then (q, d) :: updateFile rest path d
    else (q, d') :: updateFile rest path d

/-- Line 135/137 of `video.py`: bump an odd pixel dimension to the next even
number, leave an even one unchanged. -/
def evenDim (n : Nat) : Nat :=
  if n % 2 ≠ 0 then n + 1 else n

/-- Lines 121-142 (`def resize_image(image_path)`), the even-dimension fixup:
open the image at `image_path`, round each of width and height up to the
nearest even integer if odd, and save the result back to `image_path`.
Returns `none` when `Image.open` fails (no valid image at that path),
modelling the raised exception. -/
def resize_image (fs : List (String × FileData)) (image_path : String) :
    Option (List (String × FileData)) :=
  match lookupFile fs image_path with
  | some (.image width height) =>
      some (updateFile fs image_path (.image (evenDim width) (evenDim height)))
  | _ => none

/-- Line 20 / line 173: the extensions treated as images. -/
def imageExts : List String := ["jpg", "png", "jpeg", "webp"]

/-- Outcome of `requests.get(url, stream=True)` together with the streamed
body: `raises` models a network or filesystem exception anywhere inside the
`try` before the resize call, `status` is `response.status_code`, and
`content` is what the chunk loop writes to disk. -/
structure HttpResp where
  raises : Bool
  status : Nat
  content : FileData

/-- Effect parameters of one `download_file` call: the HTTP outcome and the
`uuid.uuid4()` value used to build the fresh filename. -/
structure DlEnv where
  resp : HttpResp
  uuidName : String

/-- Line 174's call `resize_image(file_path)` as executed by the loaded
module.  `video.py` defines `resize_image` twice: the even-dimension fixup at
line 122 and the `/resize-image` route handler at line 350, which takes zero
parameters.  The later `def` rebinds the module-level name, so the
one-argument call made by `download_file` raises
`TypeError: resize_image() takes 0 positional arguments but 1 was given`;
the fixup never runs.  Modelled as an error that leaves the filesystem
unchanged. -/
def resize_image_call (fs : List (String × FileData)) (image_path : String) :
    Except Unit (List (String × FileData)) :=
  Except.error ()

/-- Lines 145-179 (`def download_file(url, extension, folder)`): stream the
URL to `folder/<uuid>.<extension>` when the status code is 200, then for
image extensions call `resize_image` on the written file.  Any exception
inside the `try` is caught and the function falls through to `return None`;
a non-200 status skips the body and also returns `None`.  Returns the
produced path (or `none`) together with the updated uploads filesystem. -/
def download_file (env : DlEnv) (url extension folder : String)
    (fs : List (String × FileData)) : Option String × List (String × FileData) :=
  if env.resp.raises then (none, fs)
  else if env.resp.status = 200 then
    let file_path := folder ++ "/" ++ env.uuidName ++ "." ++ extension
    let fs := (file_path, env.resp.content) :: fs
    if extension ∈ imageExts then
      match resize_image_call fs file_path with
      | Except.ok fs => (some file_path, fs)
      | Except.error _ => (none, fs)
    else (some file_path, fs)
  else (none, fs)

/-! ## Sequence Planner and the `/convert` handler

`convert_to_video` (lines 183-287) is modelled as a function of the
request body, an environment fixing the outcomes of its effectful
sub-calls (`download_file` per URL, `get_audio_duration`, the generated
names, the `ffmpeg` exit status), and the set of temporary-file paths
present on disk, returning the HTTP response together with the final set
of paths.
-/

/-- Python's `list * k`: `k` concatenated copies for `k > 0`, the empty list
for `k <= 0`. -/
def pyListMul (l : List α) (k : Int) : List α :=
  List.flatten (List.replicate k.toNat l)

/-- Lines 228-231, the Sequence Planner arithmetic: with each image shown for
3 seconds, when `num_images * 3 < audio_duration` replace the list by
`image_paths * (int(audio_duration // 3) + 1)`; otherwise keep it as is.
Python's `int(x // 3)` on a non-negative float is the floor of `x / 3`. -/
def planImages (image_paths : List String) (audio_duration : ℚ) : List String :=
  if (image_paths.length * 3 : ℚ) < audio_duration then
    pyListMul image_paths (⌊audio_duration / 3⌋ + 1)
  else image_paths

/-- JSON body of a `/convert` request: which of the two required fields are
present, and the list of image URLs. -/
structure ConvertReq where
  audio_url : Option String
  image_urls : Option (List String)

/-- Environment of one `/convert` request: the path produced by the audio
`download_file` call (`none` on failure), the path produced per image URL,
the probed duration, the uuid-named sequence-plan and output-video paths,
and whether the `ffmpeg` encode exits with status 0. -/
structure ConvertEnv where
  audioDl : Option String
  imageDl : String → Option String
  duration : ℚ
  seq_file : String
  video_path : String
  encoderOk : Bool

/-- Response of the `/convert` handler: a `jsonify({"error": ...}), status`
pair or a 200 `send_file` attachment. -/
inductive ConvertResp
  | jsonError (status : Nat) (msg : String)
  | fileResponse (path : String)
deriving DecidableEq

/-- HTTP status code of a `/convert` response (`send_file` returns 200). -/
def ConvertResp.statusCode : ConvertResp → Nat
  | .jsonError status _ => status
  | .fileResponse _ => 200

/-- Lines 183-287 (`def convert_to_video()`).  Validation and downloads
happen before the `try`, so their early `return`s do not pass through the
`finally` cleanup at lines 279-287; the cleanup (remove the audio file,
every path in the possibly repeated `image_paths` list that still exists,
and the sequence file) runs only on the encode/success paths.  `fs` is the
list of temporary paths on disk; a successful `download_file` adds its
returned path. -/
def convert_to_video (req : ConvertReq) (env : ConvertEnv) (fs : List String) :
    ConvertResp × List String :=
  match req.audio_url, req.image_urls with
  | some _, some image_urls =>
    match env.audioDl with
    | none => (.jsonError 400 "Failed to download audio file.", fs)
    | some audio_path =>
      let fs := audio_path :: fs
      let image_paths := image_urls.filterMap env.imageDl
      let fs := image_paths ++ fs
      if image_paths.isEmpty then
        (.jsonError 400 "No valid images downloaded.", fs)
      else if env.duration = 0 then
        (.jsonError 500 "Could not determine the audio duration.", fs)
      else
        let image_paths := planImages image_paths env.duration
        let fs := env.seq_file :: fs
        let step : ConvertResp × List String :=
          if env.encoderOk then (.fileResponse env.video_path, env.video_path :: fs)
          else (.jsonError 500 "Error during video generation", fs)
        let cleaned := ((step.2.erase audio_path).removeAll image_paths).erase env.seq_file
        (step.1, cleaned)
  | _, _ => (.jsonError 400 "audio_url and image_urls are required.", fs)

/-! ## Duration Prober (`get_audio_duration`) -/

/-- Worker for `get_audio_duration`: scan the diagnostic lines in order.
Mirrors lines 112-118 of `video.py`: the first line containing the
substring `Duration` is committed to; `line.split('Duration:')[1]` raises
`IndexError` when `Duration:` (with colon) does not occur,
`map(float, ...)` unpacked into three names raises `ValueError` unless the
comma-delimited, stripped field splits on `:` into exactly three parseable
numbers.  A raised exception is `none`; exhausting the lines returns 0. -/
def get_audio_duration_lines : List (List Char) → Option ℚ
  | [] => some 0
  | line :: rest =>
    if containsSub ("Duration".data) line then
      match pySplitOn ("Duration:".data) line with
      | _ :: after :: _ =>
        let duration_str :=
          stripBy pyIsSpace (((pySplitOn [','] after).headD []))
        match pySplitOn [':'] duration_str with
        | [hs, ms, ss] =>
          match parsePyFloat hs, parsePyFloat ms, parsePyFloat ss with
          | some hours, some minutes, some seconds =>
              some (hours * 3600 + minutes * 60 + seconds)
          | _, _, _ => none
        | _ => none
      | _ => none
    else get_audio_duration_lines rest

/-- Lines 96-118 (`def get_audio_duration(audio_path)`): run
`ffmpeg -i audio_path` and parse the first `Duration` line of its stderr.
The model takes the captured stderr text; `splitlines` is modelled as
splitting on newline (the empty trailing piece a final newline produces
contains no `Duration` and is harmless). -/
def get_audio_duration (stderr : String) : Option ℚ :=
  get_audio_duration_lines (pySplitOn ['\n'] stderr.data)

/-! ## `secure_filename` and the `/delete` handler -/

/-- Characters kept by werkzeug's `_filename_ascii_strip_re`
(`[^A-Za-z0-9_.-]` is deleted). -/
def allowedChar (c : Char) : Bool :=
  c.isAlphanum || c = '_' || c = '.' || c = '-'

/-- `werkzeug.utils.secure_filename` on a POSIX host: encode to ASCII
dropping other characters (the NFKD normalization step only rewrites
non-ASCII input and is modelled by the drop), replace `os.sep` (`/`) with
spaces, join the whitespace-split words with `_`, delete characters outside
`[A-Za-z0-9_.-]`, and strip leading/trailing `.` and `_`.  The Windows
device-name special case does not apply on POSIX. -/
def secure_filename (s : String) : String :=
  let ascii := s.data.filter (fun c => c.toNat < 128)
  let replaced := ascii.map (fun c => if c = '/' then ' ' else c)
  let joined := (List.intersperse ['_'] (pyWords replaced)).flatten
  String.mk (stripBy (fun c => c ∈ ['.', '_']) (joined.filter allowedChar))

/-- State of the managed output directory `videos/` and its surroundings:
the regular files and the subdirectories it directly contains. -/
structure VideoDir where
  files : List String
  dirs : List String
deriving DecidableEq

/-- Response of the `/delete` handler: status code and the name of the file
it removed from the output directory, if any. -/
structure DeleteResp where
  status : Nat
  deleted : Option String
deriving DecidableEq

/-- Lines 291-346 (`def delete_video()`): 400 when the `filename` field is
missing; otherwise sanitize with `secure_filename`, join onto `videos/`,
404 when nothing exists there, 400 when the entry is not a regular file
(a subdirectory, or the empty sanitized name making the path the directory
itself), else `os.remove` it — 500 when the removal raises
(`removeFails`), 200 on success. -/
def delete_video (dir : VideoDir) (removeFails : Bool) (body : Option String) :
    DeleteResp × VideoDir :=
  match body with
  | none => (⟨400, none⟩, dir)
  | some raw =>
    let filename := secure_filename raw
    if filename ∈ dir.files ∨ filename ∈ dir.dirs ∨ filename = "" then
      if filename ∈ dir.files then
        if removeFails then (⟨500, none⟩, dir)
        else (⟨200, some filename⟩, ⟨dir.files.erase filename, dir.dirs⟩)
      else (⟨400, none⟩, dir)
    else (⟨404, none⟩, dir)

/-! ## Helper lemmas -/

theorem lookupFile_updateFile_self (fs : List (String × FileData)) (p : String)
    (d : FileData) (h : (lookupFile fs p).isSome) :
    lookupFile (updateFile fs p d) p = some d := by
  induction fs with
  | nil => simp [lookupFile] at h
  | cons e rest ih =>
    obtain ⟨q, d'⟩ := e
    by_cases hp : q = p
    · subst hp
      simp [lookupFile, updateFile]
    · simp only [lookupFile, updateFile, if_neg hp] at h ⊢
      exact ih h

theorem evenDim_mod_two (n : Nat) : evenDim n % 2 = 0 := by
  unfold evenDim
  by_cases h : n % 2 = 0 <;> simp [h] <;> omega

theorem evenDim_of_even (n : Nat) (h : n % 2 = 0) : evenDim n = n := by
  simp [evenDim, h]

theorem evenDim_of_odd (n : Nat) (h : n % 2 ≠ 0) : evenDim n = n + 1 := by
  simp [evenDim, h]

theorem length_flatten_replicate (n : Nat) (l : List α) :
    (List.flatten (List.replicate n l)).length = n * l.length := by
  induction n with
  | zero => simp
  | succ n ih =>
    simp [List.replicate_succ, ih, Nat.succ_mul, Nat.add_comm]

theorem length_pyListMul (l : List α) (k : Int) :
    (pyListMul l k).length = k.toNat * l.length :=
  length_flatten_replicate k.toNat l

/-! ## Claims about the Asset Fetcher and Image Normalizer -/

/-- C2: the claim states that for image-type extensions a successful download
invokes the even-dimension fixup on the freshly written file before
`download_file` returns the local path.  In the code as loaded, the
`/resize-image` route handler (zero parameters) rebinds the module-level name
`resize_image`, so line 174's one-argument call raises `TypeError`, the
`except` clause swallows it, and `download_file` returns `None` while the
written file keeps its original odd dimensions: here a 200-status download of
a 3x3 jpg leaves `uploads/u1.jpg` at 3x3 and yields no path. -/
theorem c2_resize_not_invoked :
    download_file ⟨⟨false, 200, FileData.image 3 3⟩, "u1"⟩ "http://h/i.jpg" "jpg"
      "uploads" [] = (none, [("uploads/u1.jpg", FileData.image 3 3)]) := rfl

/-- C8: on every valid image file, the even-dimension fixup (lines 121-142)
rewrites the file at its original path with both dimensions divisible by 2,
keeping an even dimension unchanged and growing an odd one by exactly 1
(hence by at most +1 per axis). -/
theorem c8_even_dimension_fixup (fs : List (String × FileData)) (image_path : String)
    (width height : Nat) (hvalid : lookupFile fs image_path = some (.image width height)) :
    ∃ fs', resize_image fs image_path = some fs' ∧
      lookupFile fs' image_path = some (.image (evenDim width) (evenDim height)) ∧
      evenDim width % 2 = 0 ∧ evenDim height % 2 = 0 ∧
      (width % 2 = 0 → evenDim width = width) ∧
      (width % 2 ≠ 0 → evenDim width = width + 1) ∧
      (height % 2 = 0 → evenDim height = height) ∧
      (height % 2 ≠ 0 → evenDim height = height + 1) ∧
      evenDim width ≤ width + 1 ∧ evenDim height ≤ height + 1 := by
  refine ⟨updateFile fs image_path (.image (evenDim width) (evenDim height)),
    by simp [resize_image, hvalid], ?_, evenDim_mod_two width, evenDim_mod_two height,
    evenDim_of_even width, evenDim_of_odd width, evenDim_of_even height,
    evenDim_of_odd height, ?_, ?_⟩
  · exact lookupFile_updateFile_self fs image_path _ (by simp [hvalid])
  · unfold evenDim; by_cases h : width % 2 = 0 <;> simp [h]
  · unfold evenDim; by_cases h : height % 2 = 0 <;> simp [h]

/-- C8 witness: the fixup applied to a concrete 3x4 image stored at
`uploads/u.jpg`. -/
theorem c8_even_dimension_fixup_witness :
    ∃ fs', resize_image [("uploads/u.jpg", FileData.image 3 4)] "uploads/u.jpg" = some fs' ∧
      lookupFile fs' "uploads/u.jpg" = some (.image (evenDim 3) (evenDim 4)) ∧
      evenDim 3 % 2 = 0 ∧ evenDim 4 % 2 = 0 ∧
      (3 % 2 = 0 → evenDim 3 = 3) ∧ (3 % 2 ≠ 0 → evenDim 3 = 3 + 1) ∧
      (4 % 2 = 0 → evenDim 4 = 4) ∧ (4 % 2 ≠ 0 → evenDim 4 = 4 + 1) ∧
      evenDim 3 ≤ 3 + 1 ∧ evenDim 4 ≤ 4 + 1 :=
  c8_even_dimension_fixup _ "uploads/u.jpg" 3 4 rfl

/-- C10: `download_file` accepts only a literal 200 status: on any other
status code (201 and 204 included) and on any raised exception it returns
`None`.  Together with the code's `return file_path` sitting inside the
`status_code == 200` branch, a returned path can only arise from a 200
response. -/
theorem c10_download_only_200 (env : DlEnv) (url extension folder : String)
    (fs : List (String × FileData))
    (h : env.resp.status ≠ 200 ∨ env.resp.raises = true) :
    (download_file env url extension folder fs).1 = none := by
  unfold download_file
  rcases h with h | h
  · by_cases hr : env.resp.raises <;> simp [hr, h]
  · simp [h]

/-- C10 witness: a 201 Created response makes `download_file` return `None`. -/
theorem c10_download_only_200_witness :
    (download_file ⟨⟨false, 201, FileData.blob⟩, "u0"⟩ "http://h/a.mp3" "mp3"
      "uploads" []).1 = none :=
  c10_download_only_200 _ _ _ _ _ (Or.inl (by decide))

/-! ## Claims about the `/convert` handler -/

/-- C1: the claim states that every exit path of `/convert` removes the
fetched audio, all fetched images and the sequence-plan file.  The cleanup
`finally` (lines 279-287) only wraps the encode `try` (lines 241-278); the
early validation returns at lines 207, 219 and 224 bypass it.  Concretely, a
request whose audio download succeeds and whose only image download fails
returns 400 with the downloaded audio file still present in the uploads
folder. -/
theorem c1_cleanup_skipped_on_validation_failure :
    convert_to_video ⟨some "http://h/a.mp3", some ["http://h/i.jpg"]⟩
      ⟨some "uploads/u0.mp3", fun _ => none, 0, "uploads/s.txt", "videos/v.mp4", true⟩ [] =
      (.jsonError 400 "No valid images downloaded.", ["uploads/u0.mp3"]) := rfl

theorem toNat_cast_q (x : ℤ) (hx : 0 ≤ x) : ((x.toNat : ℕ) : ℚ) = (x : ℚ) := by
  rw [← Int.cast_natCast, Int.toNat_of_nonneg hx]

/-- C3: the Sequence Planner behaves exactly as specified: when
`image_count * 3 < duration` the final list is the original list repeated
`floor(duration / 3) + 1` times (in particular its length is
`image_count * (floor(duration / 3) + 1)`), and otherwise the list is used
unmodified with no truncation. -/
theorem c3_sequence_planner (l : List String) (d : ℚ) (hl : l ≠ []) (hd : 0 < d) :
    ((l.length * 3 : ℚ) < d →
        planImages l d = List.flatten (List.replicate (Int.toNat ⌊d / 3⌋ + 1) l) ∧
        (planImages l d).length = l.length * (Int.toNat ⌊d / 3⌋ + 1)) ∧
    (¬ (l.length * 3 : ℚ) < d → planImages l d = l) := by
  have h0 : (0 : ℤ) ≤ ⌊d / 3⌋ := Int.floor_nonneg.mpr (by positivity)
  constructor
  · intro h
    have ht : (⌊d / 3⌋ + 1).toNat = ⌊d / 3⌋.toNat + 1 := by omega
    have heq : planImages l d = List.flatten (List.replicate (Int.toNat ⌊d / 3⌋ + 1) l) := by
      unfold planImages pyListMul
      rw [if_pos h, ht]
    refine ⟨heq, ?_⟩
    rw [heq, length_flatten_replicate, Nat.mul_comm]
  · intro h
    unfold planImages
    rw [if_neg h]

/-- C3 witness: the spec's two worked examples — 2 images with duration 10
give `repeat_count = floor(10/3) + 1 = 4` hence final length 8, and 5 images
with duration 10 (`5 * 3 = 15 >= 10`) are left unchanged at length 5. -/
theorem c3_sequence_planner_witness :
    (planImages ["a", "b"] 10).length = 8 ∧
      planImages ["a", "b", "c", "d", "e"] 10 = ["a", "b", "c", "d", "e"] := by
  constructor
  · have h := (c3_sequence_planner ["a", "b"] 10 (by simp) (by norm_num)).1 (by norm_num)
    rw [h.2]
    have hf : ⌊(10 : ℚ) / 3⌋ = 3 := by norm_num
    rw [hf]
    rfl
  · exact (c3_sequence_planner ["a", "b", "c", "d", "e"] 10 (by simp) (by norm_num)).2
      (by norm_num)

/-- C4: for every non-empty image list and duration `d > 0`, the planned
display time (3 seconds per entry of the final list) is at least the audio
duration — in the unrepeated branch because `3 * n >= d` is exactly the
branch condition, in the repeated branch because
`3 * (floor(d/3) + 1) > d` and the list factor is at least one. -/
theorem c4_plan_covers_duration (l : List String) (d : ℚ) (hl : l ≠ []) (hd : 0 < d) :
    d ≤ 3 * ((planImages l d).length : ℚ) := by
  have hn : 1 ≤ l.length := List.length_pos.mpr hl
  have hnq : (1 : ℚ) ≤ (l.length : ℚ) := by exact_mod_cast hn
  unfold planImages
  by_cases h : (l.length * 3 : ℚ) < d
  · rw [if_pos h, length_pyListMul]
    have h0 : (0 : ℤ) ≤ ⌊d / 3⌋ := Int.floor_nonneg.mpr (by positivity)
    have hfl : d / 3 - 1 < (⌊d / 3⌋ : ℚ) := Int.sub_one_lt_floor (d / 3)
    push_cast
    rw [toNat_cast_q _ (by omega)]
    push_cast
    nlinarith [hfl, hnq]
  · rw [if_neg h]
    push_cast at h ⊢
    nlinarith

/-- C4 witness: one image and duration 2 seconds — the plan of length 1
covers 3 seconds, at least the 2-second audio. -/
theorem c4_plan_covers_duration_witness :
    (2 : ℚ) ≤ 3 * ((planImages ["a"] 2).length : ℚ) :=
  c4_plan_covers_duration ["a"] 2 (by simp) (by norm_num)

/-- C5 counterexample: the claimed overshoot bound of `3*image_count - 1`
seconds fails on the spec's own planner example — 2 images with duration 10
are repeated to 8 entries, 24 seconds of planned time, overshooting the
10-second audio by 14 seconds, more than `3*2 - 1 = 5`. -/
theorem c5_overshoot_counterexample :
    ¬ (3 * ((planImages ["a", "b"] 10).length : ℚ) - 10 ≤ 3 * 2 - 1) := by
  have h8 : (planImages ["a", "b"] 10).length = 8 := by
    unfold planImages pyListMul
    rw [if_pos (by norm_num)]
    rw [length_flatten_replicate]
    have hf : ⌊(10 : ℚ) / 3⌋ = 3 := by norm_num
    rw [hf]
    rfl
  rw [h8]
  norm_num

/-- C5 amended: the planner's total planned display time exceeds the audio
duration `d >= 0` by at most `(image_count - 1) * d + 3 * image_count`
seconds (the whole-list multiplicative repetition makes the overshoot grow
with the duration, so no bound in `image_count` alone holds). -/
theorem c5_overshoot_amended (l : List String) (d : ℚ) (hd : 0 ≤ d) :
    3 * ((planImages l d).length : ℚ) - d ≤ ((l.length : ℚ) - 1) * d + 3 * l.length := by
  unfold planImages
  by_cases h : (l.length * 3 : ℚ) < d
  · rw [if_pos h, length_pyListMul]
    have h0 : (0 : ℤ) ≤ ⌊d / 3⌋ := Int.floor_nonneg.mpr (by positivity)
    have hfl : (⌊d / 3⌋ : ℚ) ≤ d / 3 := Int.floor_le (d / 3)
    have hnq : (0 : ℚ) ≤ (l.length : ℚ) := by positivity
    push_cast
    rw [toNat_cast_q _ (by omega)]
    push_cast
    nlinarith [mul_le_mul_of_nonneg_left hfl hnq]
  · rw [if_neg h]
    push_cast at h ⊢
    nlinarith

/-- C5 amended witness: the bound instantiated at the counterexample input —
2 images, duration 10, overshoot 14 against the amended bound
`(2 - 1)*10 + 3*2 = 16`. -/
theorem c5_overshoot_amended_witness :
    3 * ((planImages ["a", "b"] 10).length : ℚ) - 10 ≤
      ((List.length ["a", "b"] : ℚ) - 1) * 10 + 3 * (List.length ["a", "b"]) :=
  c5_overshoot_amended ["a", "b"] 10 (by norm_num)

/-! ## Claims about the Duration Prober -/

/-- C6: the positive half of the claim holds — diagnostic text whose
`Duration` line carries the marker `Duration: 00:01:30.50` yields exactly
`0*3600 + 1*60 + 30.5 = 90.5` seconds.  The zero-on-no-marker half is
broken: ffmpeg reports `Duration: N/A` for inputs whose duration it cannot
determine, and on such output the code reaches
`hours, minutes, seconds = map(float, duration_str.split(':'))` with the
single non-numeric field `N/A` and raises `ValueError` (modelled `none`)
instead of returning the documented 0. -/
theorem c6_duration_probe_eval :
    get_audio_duration "  Duration: 00:01:30.50, start: 0.000000, bitrate: 128 kb" =
      some (181 / 2 : ℚ) ∧
    get_audio_duration "  Duration: N/A, start: 0.000000, bitrate: N/A" = none := by
  constructor
  · have h :
        get_audio_duration "  Duration: 00:01:30.50, start: 0.000000, bitrate: 128 kb" =
          some ((((0 : ℕ)) : ℚ) * 3600 + (((1 : ℕ)) : ℚ) * 60 +
            ((((30 : ℕ)) : ℚ) + (((50 : ℕ)) : ℚ) / (10 : ℚ) ^ 2)) := rfl
    rw [h]
    norm_num
  · rfl

/-- Status table of the `/convert` handler as the specification words it:
missing field, audio failure and empty image list are 400; zero duration and
encoder failure are 500; otherwise the video is served with 200. -/
def specStatus (fieldsPresent audioOk imagesOk : Bool) (d : ℚ) (encoderOk : Bool) : Nat :=
  if !fieldsPresent then 400
  else if !audioOk then 400
  else if !imagesOk then 400
  else if d = 0 then 500
  else if !encoderOk then 500
  else 200

/-- C7: the `/convert` status is exactly the spec's cause-to-status table
(first conjunct); an encoder failure on an otherwise valid request produces
a 500 JSON error body (second conjunct); and a failing individual image
download is a per-item skip — prepending a URL whose download fails leaves
the handler's entire result unchanged, so it never by itself fails the
request (third conjunct). -/
theorem c7_status_mapping (req : ConvertReq) (env : ConvertEnv) (fs : List String)
    (u : String) :
    (convert_to_video req env fs).1.statusCode =
      specStatus (req.audio_url.isSome && req.image_urls.isSome) env.audioDl.isSome
        (!((req.image_urls.getD []).filterMap env.imageDl).isEmpty) env.duration
        env.encoderOk ∧
    ((req.audio_url.isSome && req.image_urls.isSome) = true → env.audioDl.isSome = true →
      (!((req.image_urls.getD []).filterMap env.imageDl).isEmpty) = true →
      ¬ env.duration = 0 → env.encoderOk = false →
      ∃ msg, (convert_to_video req env fs).1 = .jsonError 500 msg) ∧
    (env.imageDl u = none → ∀ a us,
      convert_to_video ⟨a, some (u :: us)⟩ env fs = convert_to_video ⟨a, some us⟩ env fs) := by
  obtain ⟨a, i⟩ := req
  refine ⟨?_, ?_, ?_⟩
  · cases a with
    | none => cases i <;> simp [convert_to_video, specStatus, ConvertResp.statusCode]
    | some a' =>
      cases i with
      | none => simp [convert_to_video, specStatus, ConvertResp.statusCode]
      | some urls =>
        cases henv : env.audioDl with
        | none => simp [convert_to_video, specStatus, ConvertResp.statusCode, henv]
        | some ap =>
          by_cases himg : (urls.filterMap env.imageDl).isEmpty
          · simp [convert_to_video, specStatus, ConvertResp.statusCode, henv, himg]
          · by_cases hd : env.duration = 0
            · simp [convert_to_video, specStatus, ConvertResp.statusCode, henv, himg, hd]
            · by_cases he : env.encoderOk
              · simp [convert_to_video, specStatus, ConvertResp.statusCode, henv, himg,
                  hd, he]
              · simp [convert_to_video, specStatus, ConvertResp.statusCode, henv, himg,
                  hd, he]
  · intro hf ha himg hd he
    cases a with
    | none => simp at hf
    | some a' =>
      cases i with
      | none => simp at hf
      | some urls =>
        cases henv : env.audioDl with
        | none => rw [henv] at ha; simp at ha
        | some ap =>
          simp only [Option.getD_some] at himg
          have himg' : ¬ (urls.filterMap env.imageDl).isEmpty := by simpa using himg
          refine ⟨"Error during video generation", ?_⟩
          simp [convert_to_video, henv, himg', hd, he]
  · intro hu a' us
    cases a' <;> simp [convert_to_video, List.filterMap_cons, hu]

/-- C7 witness: a valid request with a failing encoder gets status 500 with a
JSON error body, and prepending a URL whose download fails leaves the
result of an otherwise identical request unchanged. -/
theorem c7_status_mapping_witness :
    (convert_to_video ⟨some "http://h/a.mp3", some ["http://h/i.jpg"]⟩
        ⟨some "uploads/u0.mp3", fun _ => some "uploads/u1.jpg", 6, "uploads/s.txt",
          "videos/v.mp4", false⟩ []).1.statusCode = 500 ∧
    (∃ msg, (convert_to_video ⟨some "http://h/a.mp3", some ["http://h/i.jpg"]⟩
        ⟨some "uploads/u0.mp3", fun _ => some "uploads/u1.jpg", 6, "uploads/s.txt",
          "videos/v.mp4", false⟩ []).1 = ConvertResp.jsonError 500 msg) ∧
    convert_to_video ⟨some "http://h/a.mp3", some ["bad", "good"]⟩
        ⟨some "uploads/u0.mp3", (fun u => if u = "good" then some "uploads/g.jpg" else none),
          6, "uploads/s.txt", "videos/v.mp4", true⟩ [] =
      convert_to_video ⟨some "http://h/a.mp3", some ["good"]⟩
        ⟨some "uploads/u0.mp3", (fun u => if u = "good" then some "uploads/g.jpg" else none),
          6, "uploads/s.txt", "videos/v.mp4", true⟩ [] := by
  refine ⟨?_, ?_, ?_⟩
  · exact (c7_status_mapping ⟨some "http://h/a.mp3", some ["http://h/i.jpg"]⟩
      ⟨some "uploads/u0.mp3", fun _ => some "uploads/u1.jpg", 6, "uploads/s.txt",
        "videos/v.mp4", false⟩ [] "u").1.trans (by simp [specStatus])
  · exact (c7_status_mapping ⟨some "http://h/a.mp3", some ["http://h/i.jpg"]⟩
      ⟨some "uploads/u0.mp3", fun _ => some "uploads/u1.jpg", 6, "uploads/s.txt",
        "videos/v.mp4", false⟩ [] "u").2.1 rfl rfl rfl (by norm_num) rfl
  · exact (c7_status_mapping ⟨some "http://h/a.mp3", some ["bad", "good"]⟩
      ⟨some "uploads/u0.mp3", (fun u => if u = "good" then some "uploads/g.jpg" else none),
        6, "uploads/s.txt", "videos/v.mp4", true⟩ [] "bad").2.2 rfl
      (some "http://h/a.mp3") ["good"]

/-! ## Claims about the `/delete` handler -/

theorem dropWhile_head_not (p : Char → Bool) :
    ∀ (l : List Char) (c : Char) (r : List Char), l.dropWhile p = c :: r → p c = false := by
  intro l
  induction l with
  | nil => intro c r h; simp [List.dropWhile] at h
  | cons a as ih =>
    intro c r h
    by_cases hp : p a
    · rw [List.dropWhile_cons_of_pos hp] at h
      exact ih c r h
    · rw [List.dropWhile_cons_of_neg hp] at h
      obtain ⟨rfl, -⟩ := List.cons.inj h
      exact Bool.of_not_eq_true hp

theorem mem_stripBy (p : Char → Bool) (l : List Char) (c : Char)
    (h : c ∈ stripBy p l) : c ∈ l := by
  unfold stripBy at h
  rw [List.mem_reverse] at h
  have h1 := (List.dropWhile_sublist p).subset h
  rw [List.mem_reverse] at h1
  exact (List.dropWhile_sublist p).subset h1

theorem stripBy_rev_head (p : Char → Bool) (l d : List Char) (h : stripBy p l = d)
    (c : Char) (r : List Char) (hrev : d.reverse = c :: r) : p c = false := by
  have hd : d.reverse = ((l.dropWhile p).reverse).dropWhile p := by
    rw [← h]
    simp [stripBy]
  rw [hd] at hrev
  exact dropWhile_head_not p _ c r hrev

theorem secure_filename_no_slash (raw : String) :
    '/' ∉ (secure_filename raw).data := by
  intro hmem
  unfold secure_filename at hmem
  have h1 := mem_stripBy _ _ _ hmem
  rw [List.mem_filter] at h1
  have := h1.2
  simp [allowedChar] at this

theorem secure_filename_ne_dot (raw : String) :
    secure_filename raw ≠ "." ∧ secure_filename raw ≠ ".." := by
  constructor
  · intro h
    unfold secure_filename at h
    have hd : stripBy (fun c => decide (c ∈ ['.', '_']))
        (((List.intersperse ['_'] (pyWords ((raw.data.filter
          (fun c => c.toNat < 128)).map (fun c => if c = '/' then ' ' else c)))).flatten).filter
            allowedChar) = ".".data := congrArg String.data h
    have := stripBy_rev_head _ _ _ hd '.' [] (by rw [show (".".data) = ['.'] from rfl]; rfl)
    simp at this
  · intro h
    unfold secure_filename at h
    have hd : stripBy (fun c => decide (c ∈ ['.', '_']))
        (((List.intersperse ['_'] (pyWords ((raw.data.filter
          (fun c => c.toNat < 128)).map (fun c => if c = '/' then ' ' else c)))).flatten).filter
            allowedChar) = "..".data := congrArg String.data h
    have := stripBy_rev_head _ _ _ hd '.' ['.'] (by rw [show ("..".data) = ['.', '.'] from rfl]; rfl)
    simp at this

/-- C9 counterexample: the claim requires the response to a traversal
filename to be 400 or 404, but `secure_filename` maps `../a.mp4` to
`a.mp4`; when `videos/a.mp4` exists the handler deletes that (different)
file and answers 200. -/
theorem c9_traversal_counterexample :
    containsSub ("../".data) ("../a.mp4".data) = true ∧
    ¬ ((delete_video ⟨["a.mp4"], []⟩ false (some "../a.mp4")).1.status = 400 ∨
       (delete_video ⟨["a.mp4"], []⟩ false (some "../a.mp4")).1.status = 404) ∧
    (delete_video ⟨["a.mp4"], []⟩ false (some "../a.mp4")).1 =
      ⟨200, some "a.mp4"⟩ := by
  refine ⟨by decide, ?_, by decide⟩
  decide

/-- C9 amended: for every delete request whose filename contains `../`, the
sanitized name contains no path separator and is neither `.` nor `..`, so
the constructed path stays inside the managed output directory; the handler
never removes a file other than an existing regular file of that directory
(files only shrink, subdirectories are untouched); and the response is 400
or 404 unless the sanitized name coincides with an existing regular file
inside the directory, in which case that inside file is deleted with 200
(500 when the removal itself fails). -/
theorem c9_traversal_amended (raw : String) (dir : VideoDir) (removeFails : Bool)
    (htrav : containsSub ("../".data) raw.data = true) :
    ('/' ∉ (secure_filename raw).data ∧ secure_filename raw ≠ "." ∧
      secure_filename raw ≠ "..") ∧
    ((delete_video dir removeFails (some raw)).2.files ⊆ dir.files ∧
      (delete_video dir removeFails (some raw)).2.dirs = dir.dirs) ∧
    ((delete_video dir removeFails (some raw)).1.status = 400 ∨
     (delete_video dir removeFails (some raw)).1.status = 404 ∨
     (secure_filename raw ∈ dir.files ∧
       ((delete_video dir removeFails (some raw)).1.status = 200 ∨
        (delete_video dir removeFails (some raw)).1.status = 500))) := by
  refine ⟨⟨secure_filename_no_slash raw, secure_filename_ne_dot raw⟩, ?_, ?_⟩
  · simp only [delete_video]
    by_cases hex : secure_filename raw ∈ dir.files ∨ secure_filename raw ∈ dir.dirs ∨
        secure_filename raw = ""
    · rw [if_pos hex]
      by_cases hf : secure_filename raw ∈ dir.files
      · rw [if_pos hf]
        by_cases hr : removeFails
        · simp [hr]
        · simp [hr]
          exact fun x hx => List.mem_of_mem_erase hx
      · rw [if_neg hf]
        simp
    · rw [if_neg hex]
      simp
  · simp only [delete_video]
    by_cases hex : secure_filename raw ∈ dir.files ∨ secure_filename raw ∈ dir.dirs ∨
        secure_filename raw = ""
    · rw [if_pos hex]
      by_cases hf : secure_filename raw ∈ dir.files
      · rw [if_pos hf]
        by_cases hr : removeFails
        · simp [hr, hf]
        · simp [hr, hf]
      · rw [if_neg hf]
        simp
    · rw [if_neg hex]
      simp

/-- C9 amended witness: the traversal request `../../etc/passwd` against an
empty output directory — the sanitized name `etc_passwd` is separator-free,
nothing is removed anywhere, and the response is 404. -/
theorem c9_traversal_amended_witness :
    ('/' ∉ (secure_filename "../../etc/passwd").data ∧
      secure_filename "../../etc/passwd" ≠ "." ∧
      secure_filename "../../etc/passwd" ≠ "..") ∧
    ((delete_video ⟨[], []⟩ false (some "../../etc/passwd")).2.files ⊆ ([] : List String) ∧
      (delete_video ⟨[], []⟩ false (some "../../etc/passwd")).2.dirs = []) ∧
    ((delete_video ⟨[], []⟩ false (some "../../etc/passwd")).1.status = 400 ∨
     (delete_video ⟨[], []⟩ false (some "../../etc/passwd")).1.status = 404 ∨
     (secure_filename "../../etc/passwd" ∈ ([] : List String) ∧
       ((delete_video ⟨[], []⟩ false (some "../../etc/passwd")).1.status = 200 ∨
        (delete_video ⟨[], []⟩ false (some "../../etc/passwd")).1.status = 500))) :=
  c9_traversal_amended "../../etc/passwd" ⟨[], []⟩ false (by decide)
